import Mathlib

/-!
Verification development for the kaplay-native 2D batch rendering core
(src/gfx/gfx.ts and src/gfx/FrameBuffer.ts).

The TypeScript source is shallowly embedded as pure Lean functions over
explicit state records.  JavaScript numbers that hold geometry and index
data are modelled as rationals (the values pushed around are exact small
rationals in every behaviour the claims quantify over); GL handles are
modelled as natural-number identifiers; object identity is modelled by
those identifiers; fallible allocation is modelled by Option-valued
allocation results and Except-valued constructors.

Types imported by gfx.ts from files that are not part of the repository
snapshot (BlendMode, Uniform together with the deepEq comparator, and
Picture) are modelled from the specification, as noted on each definition.
-/

/-- Modelled from the spec: the five blend modes of the BlendMode enum from
src/types.ts (a file outside the snapshot), listed in the order of the
setBlend switch. -/
inductive BlendMode where
  | Normal
  | Add
  | Multiply
  | Screen
  | Overlay
deriving DecidableEq, Repr

/-- The WebGL blend-factor constants that setBlend passes to
gl.blendFuncSeparate. -/
inductive BlendFactor where
  | one
  | zero
  | dstColor
  | oneMinusSrcAlpha
  | oneMinusDstColor
deriving DecidableEq, Repr

/-- Modelled from the spec: a Uniform value (src/assets/shader.ts is outside
the snapshot).  A JavaScript uniform object is a heap reference carrying a
structural value; `id` stands for the reference identity of the object and
`val` for its deep structural value, so two URef with the same `id` denote
the same object (and hence carry the same `val`), while two URef with
different `id` but the same `val` denote distinct objects that are
deep-equal. -/
structure URef where
  id : Nat
  val : Nat
deriving DecidableEq, Repr

/-- Modelled from the spec: the structural-equality comparator
deepEq(curUniform, uniform) from src/utils/deepEq.ts (outside the snapshot),
restricted to the nullable uniform arguments it receives in push(); it
compares deep structural values, with null deep-equal only to null. -/
def deepEqU : Option URef → Option URef → Bool
  | none, none => true
  | some u, some v => u.val == v.val
  | _, _ => false

/-- One entry of a VertexFormat: a named attribute and its component count. -/
structure Attr where
  name : String
  size : Nat
deriving DecidableEq, Repr

/-- VertexFormat from gfx.ts: an ordered list of named component counts. -/
abbrev VertexFormat : Type := List Attr

/-- The arguments of one BatchRenderer.push call, in source order.
Texture and shader references are modelled by their identities. -/
structure PushArgs where
  primitive : Nat
  vertices : List ℚ
  indices : List ℚ
  shader : Nat
  tex : Option Nat
  uniform : Option URef
  blend : BlendMode
  width : Nat
  height : Nat
  fixed : Bool
deriving DecidableEq, Repr

/-- The material snapshot a recording push stores on a Picture command:
tex || undefined, shader, uniform || undefined, blend (gfx.ts lines
252-257).  Primitive and fixed are not part of it. -/
structure PMaterial where
  tex : Option Nat
  shader : Nat
  uniform : Option URef
  blend : BlendMode
deriving DecidableEq, Repr

/-- Modelled from the spec: one recorded Picture command,
(materialSnapshot, indexRangeStart, indexCount); the type itself lives in
src/gfx/draw/drawPicture.ts, outside the snapshot, but its shape is fixed
by the recording branch of push(). -/
structure PicCommand where
  material : PMaterial
  index : Nat
  count : Nat
deriving DecidableEq, Repr

/-- Modelled from the spec: a Picture recording target - persistent vertex
and index arrays plus the ordered command list. -/
structure Picture where
  vertices : List ℚ
  indices : List ℚ
  commands : List PicCommand
deriving DecidableEq, Repr

/-- The mutable state of a BatchRenderer (gfx.ts lines 155-176): the two
CPU-side queues, the configured maxima and stride, the current material
tuple, the optional recording Picture and the draw counter.  `glBlend`
records the four-factor tuple last configured through gl.blendFuncSeparate
by setBlend (none before the first reconfiguration).  The GL buffer handles
carry no behaviour beyond construction and are kept out of the state. -/
structure BatchRenderer where
  vertexFormat : VertexFormat
  stride : Nat
  maxVertices : Nat
  maxIndices : Nat
  vqueue : List ℚ
  iqueue : List ℚ
  numDraws : Nat
  curPrimitive : Option Nat
  curTex : Option Nat
  curShader : Option Nat
  curUniform : Option URef
  curBlend : BlendMode
  curFixed : Option Bool
  picture : Option Picture
  glBlend : Option (BlendFactor × BlendFactor × BlendFactor × BlendFactor)
deriving DecidableEq, Repr

/-- The BatchRenderer constructor state (gfx.ts lines 178-225): stride is
the sum of the format component counts, the queues start empty, no material
is current, curBlend starts at BlendMode.Normal, no Picture is active. -/
def BatchRenderer.init (format : VertexFormat) (maxVertices maxIndices : Nat) : BatchRenderer where
  vertexFormat := format
  stride := format.foldl (fun sum f => sum + f.size) 0
  maxVertices := maxVertices
  maxIndices := maxIndices
  vqueue := []
  iqueue := []
  numDraws := 0
  curPrimitive := none
  curTex := none
  curShader := none
  curUniform := none
  curBlend := BlendMode.Normal
  curFixed := none
  picture := none
  glBlend := none

/-- The four gl.blendFuncSeparate factors the setBlend switch configures for
each mode (gfx.ts lines 471-511), as (srcRGB, dstRGB, srcAlpha, dstAlpha). -/
def blendFactors : BlendMode → BlendFactor × BlendFactor × BlendFactor × BlendFactor
  | .Normal => (.one, .oneMinusSrcAlpha, .one, .oneMinusSrcAlpha)
  | .Add => (.one, .one, .one, .oneMinusSrcAlpha)
  | .Multiply => (.dstColor, .zero, .one, .oneMinusSrcAlpha)
  | .Screen => (.oneMinusDstColor, .one, .one, .oneMinusSrcAlpha)
  | .Overlay => (.dstColor, .oneMinusSrcAlpha, .one, .oneMinusSrcAlpha)

/-- BatchRenderer.setBlend (gfx.ts lines 467-513): a no-op when the mode is
unchanged, otherwise records the new mode and reconfigures the blend
function. -/
def BatchRenderer.setBlend (st : BatchRenderer) (blend : BlendMode) : BatchRenderer :=
  if blend = st.curBlend then st
  else { st with curBlend := blend, glBlend := some (blendFactors blend) }

/-- BatchRenderer.flush (gfx.ts lines 314-459).  The early return guard
`!this.curPrimitive || !this.curShader || vqueue empty || iqueue empty`
uses JavaScript falsiness, so a current primitive enum of 0 (gl.POINTS)
disables flushing exactly like a null one.  The defensive pre-draw check
compares the required upload sizes (4 bytes per queued float, 2 bytes per
queued index) against the GL buffer sizes fixed at construction
(maxVertices * 4 and maxIndices * 2 bytes) and skips the draw - leaving the
queues intact - when they do not fit.  Otherwise the draw is issued, both
queues are cleared and the draw counter is incremented.  The GL upload,
uniform sends and debug logging have no effect on the modelled state. -/
def BatchRenderer.flush (st : BatchRenderer) (width height : Nat) : BatchRenderer :=
  if st.curPrimitive = none ∨ st.curPrimitive = some 0
      ∨ st.curShader = none ∨ st.vqueue = [] ∨ st.iqueue = [] then
    st
  else if st.vqueue.length * 4 > st.maxVertices * 4 ∨ st.iqueue.length * 2 > st.maxIndices * 2 then
    st
  else
    { st with vqueue := [], iqueue := [], numDraws := st.numDraws + 1 }

/-- The material-change test of the live push path (gfx.ts lines 284-290):
primitive, texture identity, shader identity, uniform by reference-or-deep
equality, blend, fixed. -/
def tupleChanged (st : BatchRenderer) (a : PushArgs) : Prop :=
  st.curPrimitive ≠ some a.primitive
    ∨ st.curTex ≠ a.tex
    ∨ st.curShader ≠ some a.shader
    ∨ (st.curUniform ≠ a.uniform ∧ deepEqU st.curUniform a.uniform = false)
    ∨ st.curBlend ≠ a.blend
    ∨ st.curFixed ≠ some a.fixed

instance (st : BatchRenderer) (a : PushArgs) : Decidable (tupleChanged st a) := by
  unfold tupleChanged; infer_instance

/-- The capacity test of the live push path (gfx.ts lines 292-293):
appending would push a queue past its configured maximum. -/
def wouldOverflow (st : BatchRenderer) (a : PushArgs) : Prop :=
  st.vqueue.length + a.vertices.length > st.maxVertices
    ∨ st.iqueue.length + a.indices.length > st.maxIndices

instance (st : BatchRenderer) (a : PushArgs) : Decidable (wouldOverflow st a) := by
  unfold wouldOverflow; infer_instance

/-- The combined flush condition of the live push path (gfx.ts line 283). -/
def needsFlush (st : BatchRenderer) (a : PushArgs) : Prop :=
  tupleChanged st a ∨ wouldOverflow st a

instance (st : BatchRenderer) (a : PushArgs) : Decidable (needsFlush st a) := by
  unfold needsFlush; infer_instance

/-- The append tail of the live push path (gfx.ts lines 298-311): the index
offset is the vertex queue length divided by the stride (computed before
appending), vertices are appended verbatim, indices rebased, and the
current tuple fields are overwritten (curBlend is updated by setBlend, not
here, matching the source). -/
def BatchRenderer.append (st : BatchRenderer) (a : PushArgs) : BatchRenderer :=
  { st with
    vqueue := st.vqueue ++ a.vertices
    iqueue := st.iqueue ++ a.indices.map (fun i => i + (st.vqueue.length : ℚ) / (st.stride : ℚ))
    curPrimitive := some a.primitive
    curShader := some a.shader
    curTex := a.tex
    curUniform := a.uniform
    curFixed := some a.fixed }

/-- The live branch of BatchRenderer.push (gfx.ts lines 281-312).  The
returned Bool records whether flush(width, height) was invoked. -/
def BatchRenderer.pushLive (st : BatchRenderer) (a : PushArgs) : BatchRenderer × Bool :=
  let st1 := if needsFlush st a then (st.flush a.width a.height).setBlend a.blend else st
  (st1.append a, decide (needsFlush st a))

/-- The recording branch of BatchRenderer.push (gfx.ts lines 239-279):
geometry is appended to the Picture with indices rebased by the picture's
vertex count over the stride; the material snapshot is compared against the
last command's by reference equality on tex, shader and uniform and value
equality on blend, and on a match the last command's count is extended,
otherwise a new command is appended. -/
def BatchRenderer.pushRecording (pic : Picture) (stride : Nat) (a : PushArgs) : Picture :=
  let index := pic.indices.length
  let count := a.indices.length
  let indexOffset : ℚ := (pic.vertices.length : ℚ) / (stride : ℚ)
  let verts := pic.vertices ++ a.vertices
  let inds := pic.indices ++ a.indices.map (fun i => i + indexOffset)
  let material : PMaterial := ⟨a.tex, a.shader, a.uniform, a.blend⟩
  let commands :=
    match pic.commands.getLast? with
    | some lastCommand =>
      if lastCommand.material = material then
        pic.commands.dropLast
          ++ [⟨lastCommand.material, lastCommand.index, lastCommand.count + count⟩]
      else
        pic.commands ++ [⟨material, index, count⟩]
    | none => pic.commands ++ [⟨material, index, count⟩]
  ⟨verts, inds, commands⟩

/-- BatchRenderer.push (gfx.ts lines 227-312): dispatches to the recording
branch when a Picture is active, else to the live branch.  The Bool is true
iff flush was invoked (always false while recording). -/
def BatchRenderer.push (st : BatchRenderer) (a : PushArgs) : BatchRenderer × Bool :=
  match st.picture with
  | some pic => ({ st with picture := some (BatchRenderer.pushRecording pic st.stride a) }, false)
  | none => st.pushLive a

/-- Folds a sequence of push calls over a renderer state. -/
def runPushes (st : BatchRenderer) (l : List PushArgs) : BatchRenderer :=
  l.foldl (fun s a => (s.push a).1) st

/-- The claim's notion of material-tuple equality between two push calls
(C1/C4 wording): texture and shader by identity, uniform by deep value,
primitive, blend and fixed by value. -/
def claimTupleEq (a1 a2 : PushArgs) : Prop :=
  a1.primitive = a2.primitive ∧ a1.tex = a2.tex ∧ a1.shader = a2.shader
    ∧ deepEqU a1.uniform a2.uniform = true ∧ a1.blend = a2.blend ∧ a1.fixed = a2.fixed

instance (a1 a2 : PushArgs) : Decidable (claimTupleEq a1 a2) := by
  unfold claimTupleEq; infer_instance

/-- The material snapshot a push call records (gfx.ts lines 252-257). -/
def pushMaterial (a : PushArgs) : PMaterial := ⟨a.tex, a.shader, a.uniform, a.blend⟩

/-- Sum of the index counts of a sequence of pushes. -/
def sumCounts (l : List PushArgs) : Nat := (l.map (fun a => a.indices.length)).sum

/-- Per-push side conditions under which the capacity invariant holds
(see the amended claim C2): nonzero primitive enum, nonempty vertex and
index data, and each piece individually within the configured maxima. -/
def ValidArg (maxVertices maxIndices : Nat) (a : PushArgs) : Prop :=
  a.primitive ≠ 0 ∧ a.vertices ≠ [] ∧ a.indices ≠ []
    ∧ a.vertices.length ≤ maxVertices ∧ a.indices.length ≤ maxIndices

instance (maxV maxI : Nat) (a : PushArgs) : Decidable (ValidArg maxV maxI a) := by
  unfold ValidArg; infer_instance

/-- The live-mode state invariant preserved by push: no active Picture,
queues within the maxima, the queues empty or nonempty together, and a
nonempty queue guarded by a flushable current primitive and shader. -/
def LiveInv (st : BatchRenderer) : Prop :=
  st.picture = none
    ∧ st.vqueue.length ≤ st.maxVertices
    ∧ st.iqueue.length ≤ st.maxIndices
    ∧ (st.vqueue = [] ↔ st.iqueue = [])
    ∧ (st.vqueue ≠ [] →
        st.curPrimitive ≠ none ∧ st.curPrimitive ≠ some 0 ∧ st.curShader ≠ none)

instance (st : BatchRenderer) : Decidable (LiveInv st) := by
  unfold LiveInv; infer_instance

/-- The state of a Texture (gfx.ts lines 20-140): dimensions as passed to
the constructor, the `_allocated` flag, and the dimensions the GL storage
was created with (none while allocation is deferred).  The GL handle,
filter/wrap parameters, the premultiply flag, the sub-rectangle upload and
the bind/unbind stack traffic touch none of these fields and are omitted. -/
structure Texture where
  width : Nat
  height : Nat
  allocated : Bool
  storage : Option (Nat × Nat)
deriving DecidableEq, Repr

/-- The Texture constructor state (gfx.ts lines 28-82): storage is created
with the given dimensions iff both are nonzero (`if (w && h)`), else
allocation is deferred and `_allocated` stays false. -/
def Texture.create (w h : Nat) : Texture :=
  if w ≠ 0 ∧ h ≠ 0 then
    { width := w, height := h, allocated := true, storage := some (w, h) }
  else
    { width := w, height := h, allocated := false, storage := none }

/-- Texture.update (gfx.ts lines 95-126), restricted to the modelled fields:
when storage is not yet allocated it is created with the image's dimensions
and the flag is set; afterwards only the sub-rectangle upload (not modelled)
happens.  The Bool reports whether this call ran the storage allocation
(the gl.texImage2D inside the `!this._allocated` guard).  The texture's
width and height fields are never written. -/
def Texture.update (t : Texture) (img : Nat × Nat) : Texture × Bool :=
  if t.allocated then (t, false)
  else ({ t with allocated := true, storage := some img }, true)

/-- The Texture constructor with its GL handle allocation result
(gfx.ts lines 31-36): a null createTexture() is fatal. -/
def Texture.construct (alloc : Option Nat) (w h : Nat) : Except String Texture :=
  match alloc with
  | none => Except.error "[rendering] Failed to create texture"
  | some _ => Except.ok (Texture.create w h)

/-- The BatchRenderer constructor with its two GL buffer allocation results
(gfx.ts lines 199-221): a null vertex or index buffer is fatal, in that
order. -/
def BatchRenderer.construct (vAlloc iAlloc : Option Nat) (format : VertexFormat)
    (maxVertices maxIndices : Nat) : Except String BatchRenderer :=
  match vAlloc with
  | none => Except.error "Failed to create vertex buffer"
  | some _ =>
    match iAlloc with
    | none => Except.error "Failed to create index buffer"
    | some _ => Except.ok (BatchRenderer.init format maxVertices maxIndices)

/-- The state of a Mesh (gfx.ts lines 520-560): the two buffer handles and
the index count.  glIBuf is an Option because the source stores
`gl.createBuffer()!` without a null check, so a failed allocation is stored
as-is. -/
structure Mesh where
  glVBuf : Nat
  glIBuf : Option Nat
  count : Nat
deriving DecidableEq, Repr

/-- The Mesh constructor with its two GL buffer allocation results
(gfx.ts lines 527-560): a null vertex buffer throws, but the index buffer
result is stored through a non-null assertion with no check. -/
def Mesh.construct (vAlloc iAlloc : Option Nat) (vertices indices : List ℚ) :
    Except String Mesh :=
  match vAlloc with
  | none => Except.error "Failed to create vertex buffer"
  | some v => Except.ok { glVBuf := v, glIBuf := iAlloc, count := indices.length }

/-- The state of a FrameBuffer (FrameBuffer.ts lines 9-61): the owned color
Texture and the `_attached` flag; the framebuffer and renderbuffer handles
carry no further modelled behaviour. -/
structure FrameBuffer where
  tex : Texture
  attached : Bool
deriving DecidableEq, Repr

/-- The FrameBuffer constructor state (FrameBuffer.ts lines 16-61): it owns
a new Texture of the given size and attaches immediately iff the texture's
storage was allocated, so the attachment flag mirrors the allocation flag. -/
def FrameBuffer.create (w h : Nat) : FrameBuffer :=
  let t := Texture.create w h
  { tex := t, attached := t.allocated }

/-- FrameBuffer.width (FrameBuffer.ts lines 63-65): reads the owned
texture's width field. -/
def FrameBuffer.width (fb : FrameBuffer) : Nat := fb.tex.width

/-- FrameBuffer.height (FrameBuffer.ts lines 67-69): reads the owned
texture's height field. -/
def FrameBuffer.height (fb : FrameBuffer) : Nat := fb.tex.height

/-- The FrameBuffer constructor with its allocation results
(FrameBuffer.ts lines 20-30): the Texture is constructed first (and may
throw), then a null framebuffer or renderbuffer is fatal. -/
def FrameBuffer.construct (texAlloc fbAlloc rbAlloc : Option Nat) (w h : Nat) :
    Except String FrameBuffer :=
  match texAlloc with
  | none => Except.error "[rendering] Failed to create texture"
  | some _ =>
    match fbAlloc, rbAlloc with
    | some _, some _ => Except.ok (FrameBuffer.create w h)
    | _, _ => Except.error "Failed to create framebuffer"

/-- A value bound on one of the GPU state stacks: a GL handle, a dummy
texture freshly created by the texture-unit bind callback (numbered by
creation order), or a viewport rectangle. -/
inductive GLVal where
  | handle : Nat → GLVal
  | dummyTex : Nat → GLVal
  | viewportRect : Int → Int → Int → Int → GLVal
deriving DecidableEq, Repr

/-- The seven resource kinds for which initGfx creates a stack
(gfx.ts lines 640-670). -/
inductive Kind where
  | texture2D
  | arrayBuffer
  | elementArrayBuffer
  | framebuffer
  | renderbuffer
  | viewport
  | program
deriving DecidableEq, Repr

/-- One genStack instance: the stack contents (top first; items may be the
JavaScript null, hence Option) and the externally observable bound resource
of that kind (none when nothing has ever been bound). -/
structure KindState where
  stack : List (Option GLVal)
  obs : Option GLVal
deriving DecidableEq, Repr

/-- The combined binding state of initGfx: one stack per kind plus the
counter numbering the dummy textures created by the texture-unit callback. -/
structure GfxStacks where
  kinds : Kind → KindState
  fresh : Nat

/-- The per-kind bind callbacks passed to genStack (gfx.ts lines 640-670),
as their effect on the observable binding: the texture-unit callback binds
the item or a freshly created dummy texture when the item is null; the
buffer, framebuffer, renderbuffer and program callbacks bind only non-null
items (`if (b) gl.bind...`); the viewport callback skips null. -/
def bindCallback (k : Kind) (item : Option GLVal) (obs : Option GLVal) (fresh : Nat) :
    Option GLVal × Nat :=
  match k, item with
  | .texture2D, some v => (some v, fresh)
  | .texture2D, none => (some (.dummyTex fresh), fresh + 1)
  | _, some v => (some v, fresh)
  | _, none => (obs, fresh)

/-- genStack's push (gfx.ts lines 587-590): append the item as the new top,
then invoke the bind callback with the item. -/
def stackPush (k : Kind) (item : Option GLVal) (g : GfxStacks) : GfxStacks :=
  let r := bindCallback k item (g.kinds k).obs g.fresh
  { kinds := fun k' =>
      if k' = k then { stack := item :: (g.kinds k).stack, obs := r.1 }
      else g.kinds k'
    fresh := r.2 }

/-- genStack's pop (gfx.ts lines 591-594): remove the top, then invoke the
bind callback with `cur() ?? null`, the new top or null when the stack is
empty. -/
def stackPop (k : Kind) (g : GfxStacks) : GfxStacks :=
  let rest := (g.kinds k).stack.tail
  let r := bindCallback k rest.head?.join (g.kinds k).obs g.fresh
  { kinds := fun k' =>
      if k' = k then { stack := rest, obs := r.1 }
      else g.kinds k'
    fresh := r.2 }

/-- One operation on the GPU state stacks. -/
inductive StackOp where
  | push : Kind → Option GLVal → StackOp
  | pop : Kind → StackOp
deriving DecidableEq, Repr

/-- The resource kind an operation acts on. -/
def StackOp.kind : StackOp → Kind
  | .push k _ => k
  | .pop k => k

/-- Applies one stack operation. -/
def applyStackOp (op : StackOp) (g : GfxStacks) : GfxStacks :=
  match op with
  | .push k item => stackPush k item g
  | .pop k => stackPop k g

/-- Applies a sequence of stack operations in order. -/
def runStackOps (l : List StackOp) (g : GfxStacks) : GfxStacks :=
  l.foldl (fun s op => applyStackOp op s) g

/-- Sample vertex format with stride 2. -/
def fmtEx : VertexFormat := [⟨"pos", 2⟩]

/-- Sample freshly constructed renderer. -/
def brEx : BatchRenderer := BatchRenderer.init fmtEx 100 100

/-- Sample renderer with a tiny vertex capacity. -/
def brSmall : BatchRenderer := BatchRenderer.init fmtEx 2 10

/-- Sample renderer with an active empty Picture. -/
def recEx : BatchRenderer := { brEx with picture := some ⟨[], [], []⟩ }

/-- Sample push: one triangle, shader 1, no texture, no uniform. -/
def argA : PushArgs :=
  ⟨4, [0, 0, 1, 0, 1, 1], [0, 1, 2], 1, none, none, .Normal, 320, 240, false⟩

/-- Sample push with the same material tuple as argA but fresh geometry. -/
def argB : PushArgs :=
  ⟨4, [2, 0, 3, 0], [0, 1], 1, none, none, .Normal, 320, 240, false⟩

/-- Sample push whose vertex data alone exceeds brSmall's maxVertices. -/
def argBig : PushArgs :=
  ⟨4, [1, 2, 3], [0], 1, none, none, .Normal, 320, 240, false⟩

/-- Sample recording push carrying uniform object 0 with deep value 7. -/
def argU0 : PushArgs :=
  ⟨4, [0, 0, 1, 0, 1, 1], [0, 1, 2], 1, none, some ⟨0, 7⟩, .Normal, 320, 240, false⟩

/-- Sample recording push carrying the distinct uniform object 1 with the
same deep value 7. -/
def argU1 : PushArgs :=
  ⟨4, [2, 0, 3, 0], [0, 1], 1, none, some ⟨1, 7⟩, .Normal, 320, 240, false⟩

/-- Sample recording push differing from argA only in primitive and fixed. -/
def argAltPrim : PushArgs :=
  ⟨5, [2, 0, 3, 0], [0, 1], 1, none, none, .Normal, 320, 240, true⟩

/-- Initial stack state: every stack empty, nothing observed bound, no
dummy textures created yet. -/
def g0 : GfxStacks := { kinds := fun _ => { stack := [], obs := none }, fresh := 0 }

/-- Sample stack state whose array-buffer stack holds handle 3, currently
bound. -/
def gArr : GfxStacks :=
  { kinds := fun k =>
      if k = Kind.arrayBuffer then { stack := [some (.handle 3)], obs := some (.handle 3) }
      else { stack := [], obs := none }
    fresh := 0 }

/-- Sample interleaved operations on kinds other than arrayBuffer. -/
def midOps : List StackOp :=
  [.push .texture2D (some (.handle 9)), .push .viewport (some (.viewportRect 0 0 4 4)),
   .pop .texture2D, .pop .viewport]

/-- A texture constructed with a zero dimension defers allocation. -/
theorem texture_create_deferred (w h : Nat) (hwh : w = 0 ∨ h = 0) :
    (Texture.create w h).allocated = false ∧ (Texture.create w h).storage = none := by
  have hne : ¬(w ≠ 0 ∧ h ≠ 0) := by rcases hwh with h0 | h0 <;> simp [h0]
  simp [Texture.create, hne]

/-- The width field always holds the constructor argument. -/
theorem texture_create_width (w h : Nat) : (Texture.create w h).width = w := by
  unfold Texture.create; split <;> rfl

/-- The height field always holds the constructor argument. -/
theorem texture_create_height (w h : Nat) : (Texture.create w h).height = h := by
  unfold Texture.create; split <;> rfl

/-- update on an unallocated texture allocates storage with the image's
dimensions and reports having done so. -/
theorem texture_update_unallocated (t : Texture) (img : Nat × Nat)
    (h : t.allocated = false) :
    t.update img = ({ t with allocated := true, storage := some img }, true) := by
  simp [Texture.update, h]

/-- C6: setBlend(mode) is a no-op when mode equals the current blend mode;
otherwise it records the new mode and configures exactly the four-factor
tuple (srcRGB, dstRGB, srcAlpha, dstAlpha) of the spec's table for each of
the five modes. -/
theorem C6_setBlend_table (st : BatchRenderer) (b : BlendMode) :
    (b = st.curBlend → st.setBlend b = st) ∧
    (b ≠ st.curBlend →
      (st.setBlend b).curBlend = b ∧ (st.setBlend b).glBlend = some (blendFactors b)) ∧
    blendFactors .Normal = (.one, .oneMinusSrcAlpha, .one, .oneMinusSrcAlpha) ∧
    blendFactors .Add = (.one, .one, .one, .oneMinusSrcAlpha) ∧
    blendFactors .Multiply = (.dstColor, .zero, .one, .oneMinusSrcAlpha) ∧
    blendFactors .Screen = (.oneMinusDstColor, .one, .one, .oneMinusSrcAlpha) ∧
    blendFactors .Overlay = (.dstColor, .oneMinusSrcAlpha, .one, .oneMinusSrcAlpha) := by
  refine ⟨fun h => ?_, fun h => ?_, rfl, rfl, rfl, rfl, rfl⟩
  · simp [BatchRenderer.setBlend, h]
  · simp [BatchRenderer.setBlend, h]

/-- C6 witness: on a fresh renderer (current mode Normal), setBlend Normal
is a no-op and setBlend Add configures the Add tuple. -/
theorem C6_setBlend_table_witness :
    brEx.setBlend .Normal = brEx ∧
    (brEx.setBlend .Add).curBlend = .Add ∧
    (brEx.setBlend .Add).glBlend = some (blendFactors .Add) := by
  have h1 := (C6_setBlend_table brEx .Normal).1 rfl
  have h2 := (C6_setBlend_table brEx .Add).2.1 (by decide)
  exact ⟨h1, h2.1, h2.2⟩

/-- C8: every GL handle allocation failure in the Texture, BatchRenderer and
FrameBuffer constructors (and the Mesh vertex buffer) raises the
constructor's error, but a failed Mesh index-buffer allocation is stored
through the source's non-null assertion and the constructor still returns a
Mesh whose index-buffer handle is the null value - the code slip behind the
code_bug verdict. -/
theorem C8_mesh_ibuf_unchecked :
    Texture.construct none 2 2 = Except.error "[rendering] Failed to create texture" ∧
    BatchRenderer.construct none (some 1) fmtEx 8 8
      = Except.error "Failed to create vertex buffer" ∧
    BatchRenderer.construct (some 1) none fmtEx 8 8
      = Except.error "Failed to create index buffer" ∧
    FrameBuffer.construct none (some 1) (some 2) 4 4
      = Except.error "[rendering] Failed to create texture" ∧
    FrameBuffer.construct (some 1) none (some 2) 4 4
      = Except.error "Failed to create framebuffer" ∧
    FrameBuffer.construct (some 1) (some 2) none 4 4
      = Except.error "Failed to create framebuffer" ∧
    Mesh.construct (some 1) none [1, 2] [0]
      = Except.ok { glVBuf := 1, glIBuf := none, count := 1 } :=
  ⟨rfl, rfl, rfl, rfl, rfl, rfl, rfl⟩

/-- C9 counterexample: on a texture constructed with zero dimensions, a
first update with a zero-size image already runs the storage allocation, so
the first update with a nonzero-size image (the second call) performs no
allocation and the storage keeps the zero dimensions - refuting the claim
that the first nonzero-size update performs the allocation. -/
theorem C9_counterexample :
    (Texture.create 0 0).allocated = false ∧
    ((Texture.create 0 0).update (0, 0)).2 = true ∧
    (((Texture.create 0 0).update (0, 0)).1.update (2, 2)).2 = false ∧
    (((Texture.create 0 0).update (0, 0)).1.update (2, 2)).1.storage = some (0, 0) := by
  decide

/-- C9 amended: constructing with width = 0 or height = 0 allocates no
storage; the first subsequent update - whatever the image's size - performs
the storage allocation exactly once, using the image's dimensions; every
update on an already-allocated texture performs no allocation and leaves
the state unchanged. -/
theorem C9_deferred_alloc_amended :
    (∀ w h : Nat, w = 0 ∨ h = 0 →
      (Texture.create w h).allocated = false ∧ (Texture.create w h).storage = none) ∧
    (∀ (t : Texture) (img : Nat × Nat), t.allocated = false →
      (t.update img).2 = true ∧ (t.update img).1.allocated = true ∧
      (t.update img).1.storage = some img) ∧
    (∀ (t : Texture) (img : Nat × Nat), t.allocated = true →
      (t.update img).2 = false ∧ (t.update img).1 = t) := by
  refine ⟨fun w h hwh => texture_create_deferred w h hwh, fun t img h => ?_, fun t img h => ?_⟩
  · simp [Texture.update, h]
  · simp [Texture.update, h]

/-- C9 witness: a 0 by 4 texture starts unallocated, its first update with a
3 by 5 image allocates 3 by 5 storage, and a second update allocates
nothing. -/
theorem C9_deferred_alloc_amended_witness :
    (Texture.create 0 4).allocated = false ∧ (Texture.create 0 4).storage = none ∧
    ((Texture.create 0 4).update (3, 5)).2 = true ∧
    ((Texture.create 0 4).update (3, 5)).1.storage = some (3, 5) ∧
    (((Texture.create 0 4).update (3, 5)).1.update (6, 6)).2 = false := by
  have h1 := C9_deferred_alloc_amended.1 0 4 (Or.inl rfl)
  have h2 := C9_deferred_alloc_amended.2.1 (Texture.create 0 4) (3, 5) h1.1
  have h3 := C9_deferred_alloc_amended.2.2 ((Texture.create 0 4).update (3, 5)).1 (6, 6) h2.2.1
  exact ⟨h1.1, h1.2, h2.1, h2.2.2, h3.1⟩

/-- C10: for a texture constructed with a zero dimension, the update that
triggers the deferred allocation uses the image's dimensions for storage
but leaves the texture's width and height fields at their construction-time
values, so FrameBuffer.width and FrameBuffer.height, which read those
fields, are unchanged as well. -/
theorem C10_update_preserves_dims (w h : Nat) (img : Nat × Nat) (fb : FrameBuffer)
    (hwh : w = 0 ∨ h = 0) (htex : fb.tex = Texture.create w h) :
    (fb.tex.update img).1.width = w ∧ (fb.tex.update img).1.height = h ∧
    (fb.tex.update img).1.storage = some img ∧
    FrameBuffer.width { fb with tex := (fb.tex.update img).1 } = FrameBuffer.width fb ∧
    FrameBuffer.height { fb with tex := (fb.tex.update img).1 } = FrameBuffer.height fb := by
  have ha : fb.tex.allocated = false := by
    rw [htex]; exact (texture_create_deferred w h hwh).1
  rw [texture_update_unallocated fb.tex img ha]
  refine ⟨?_, ?_, rfl, rfl, rfl⟩
  · show fb.tex.width = w
    rw [htex]; exact texture_create_width w h
  · show fb.tex.height = h
    rw [htex]; exact texture_create_height w h

/-- C10 witness: a framebuffer constructed 0 by 4, updated with a 3 by 5
image, keeps width 0 and height 4 while its texture's storage becomes
3 by 5. -/
theorem C10_update_preserves_dims_witness :
    ((FrameBuffer.create 0 4).tex.update (3, 5)).1.width = 0 ∧
    ((FrameBuffer.create 0 4).tex.update (3, 5)).1.height = 4 ∧
    ((FrameBuffer.create 0 4).tex.update (3, 5)).1.storage = some (3, 5) ∧
    FrameBuffer.width
        { FrameBuffer.create 0 4 with tex := ((FrameBuffer.create 0 4).tex.update (3, 5)).1 }
      = FrameBuffer.width (FrameBuffer.create 0 4) ∧
    FrameBuffer.height
        { FrameBuffer.create 0 4 with tex := ((FrameBuffer.create 0 4).tex.update (3, 5)).1 }
      = FrameBuffer.height (FrameBuffer.create 0 4) :=
  C10_update_preserves_dims 0 4 (3, 5) (FrameBuffer.create 0 4) (Or.inl rfl) rfl

/-- The bind callback of every kind binds a non-null item directly. -/
theorem bindCallback_some (k : Kind) (v : GLVal) (obs : Option GLVal) (fresh : Nat) :
    bindCallback k (some v) obs fresh = (some v, fresh) := by
  cases k <;> rfl

/-- A stack operation on another kind leaves a kind's stack and observable
binding untouched. -/
theorem applyStackOp_other (op : StackOp) (g : GfxStacks) (k : Kind) (h : op.kind ≠ k) :
    (applyStackOp op g).kinds k = g.kinds k := by
  cases op with
  | push k2 item =>
    have hne : k ≠ k2 := fun he => h he.symm
    simp [applyStackOp, stackPush, hne]
  | pop k2 =>
    have hne : k ≠ k2 := fun he => h he.symm
    simp [applyStackOp, stackPop, hne]

/-- A sequence of stack operations on other kinds leaves a kind's state
untouched. -/
theorem runStackOps_other (l : List StackOp) (k : Kind) :
    ∀ g : GfxStacks, (∀ op ∈ l, op.kind ≠ k) → (runStackOps l g).kinds k = g.kinds k := by
  induction l with
  | nil => intro g _; rfl
  | cons op l ih =>
    intro g hl
    have h1 := hl op (List.mem_cons_self op l)
    have h2 : ∀ op' ∈ l, op'.kind ≠ k := fun op' hm => hl op' (List.mem_cons_of_mem op hm)
    calc (runStackOps (op :: l) g).kinds k
        = (runStackOps l (applyStackOp op g)).kinds k := rfl
      _ = (applyStackOp op g).kinds k := ih (applyStackOp op g) h2
      _ = g.kinds k := applyStackOp_other op g k h1

/-- C5 counterexample: on the array-buffer stack starting empty with nothing
bound, push(handle 5) followed by pop() leaves handle 5 bound (the buffer
bind callback is a no-op on null), not the pre-push binding - refuting the
claim for arbitrary starting stack states. -/
theorem C5_counterexample :
    ((stackPop .arrayBuffer (stackPush .arrayBuffer (some (.handle 5)) g0)).kinds
        .arrayBuffer).obs = some (.handle 5) ∧
    (g0.kinds .arrayBuffer).obs = none ∧
    ((stackPop .arrayBuffer (stackPush .arrayBuffer (some (.handle 5)) g0)).kinds
        .arrayBuffer).obs ≠ (g0.kinds .arrayBuffer).obs := by
  decide

/-- C5 amended: if a kind's stack is nonempty, its top is a non-null handle,
and that handle is the currently bound resource (the documented stack
invariant), then push(x) followed by pop() on that kind restores the
observable binding, for any interleaved operations on other resource
kinds. -/
theorem C5_stack_restore_amended (g : GfxStacks) (k : Kind) (x b : GLVal)
    (mid : List StackOp) (hmid : ∀ op ∈ mid, op.kind ≠ k)
    (hhead : (g.kinds k).stack.head? = some (some b))
    (hobs : (g.kinds k).obs = some b) :
    ((stackPop k (runStackOps mid (stackPush k (some x) g))).kinds k).obs
      = (g.kinds k).obs := by
  have hpushed : (stackPush k (some x) g).kinds k
      = { stack := some x :: (g.kinds k).stack, obs := some x } := by
    simp [stackPush, bindCallback_some]
  have hks : (runStackOps mid (stackPush k (some x) g)).kinds k
      = { stack := some x :: (g.kinds k).stack, obs := some x } := by
    rw [runStackOps_other mid k (stackPush k (some x) g) hmid, hpushed]
  simp [stackPop, hks, hhead, bindCallback_some, hobs]

/-- C5 witness: the array-buffer stack holds bound handle 3; push(handle 7),
interleaved texture and viewport pushes and pops, then pop() restores the
array-buffer binding. -/
theorem C5_stack_restore_amended_witness :
    ((stackPop .arrayBuffer
        (runStackOps midOps (stackPush .arrayBuffer (some (.handle 7)) gArr))).kinds
        .arrayBuffer).obs = (gArr.kinds .arrayBuffer).obs :=
  C5_stack_restore_amended gArr .arrayBuffer (.handle 7) (.handle 3) midOps
    (by decide) (by decide) (by decide)

/-- C7 counterexample: two push/pop cycles on the texture-unit stack from
empty bind two distinct dummy textures (gl.createTexture() is called afresh
on each empty pop), refuting "one reserved dummy handle". -/
theorem C7_counterexample :
    ((stackPop .texture2D (stackPush .texture2D (some (.handle 1)) g0)).kinds
        .texture2D).obs = some (.dummyTex 0) ∧
    ((stackPop .texture2D (stackPush .texture2D (some (.handle 1))
        (stackPop .texture2D (stackPush .texture2D (some (.handle 1)) g0)))).kinds
        .texture2D).obs = some (.dummyTex 1) ∧
    GLVal.dummyTex 0 ≠ GLVal.dummyTex 1 := by
  decide

/-- C7 amended: pop() removes the top and invokes the bind callback with the
new top; when no non-null new top remains, the kind-specific default
applies - a no-op for the buffer, framebuffer, renderbuffer and program
stacks, skipping the viewport call for the viewport stack, and binding a
freshly created dummy texture (a new one on each such pop, not one reserved
handle) for the texture-unit stack. -/
theorem C7_pop_amended (k : Kind) (g : GfxStacks) :
    ((stackPop k g).kinds k).stack = (g.kinds k).stack.tail ∧
    (∀ v : GLVal, (g.kinds k).stack.tail.head?.join = some v →
      ((stackPop k g).kinds k).obs = some v) ∧
    ((g.kinds k).stack.tail.head?.join = none →
      (k = .texture2D →
        ((stackPop k g).kinds k).obs = some (.dummyTex g.fresh) ∧
        (stackPop k g).fresh = g.fresh + 1) ∧
      (k ≠ .texture2D →
        ((stackPop k g).kinds k).obs = (g.kinds k).obs ∧
        (stackPop k g).fresh = g.fresh)) := by
  have hks : (stackPop k g).kinds k =
      { stack := (g.kinds k).stack.tail,
        obs := (bindCallback k (g.kinds k).stack.tail.head?.join (g.kinds k).obs g.fresh).1 } := by
    simp [stackPop]
  have hfr : (stackPop k g).fresh
      = (bindCallback k (g.kinds k).stack.tail.head?.join (g.kinds k).obs g.fresh).2 := by
    simp [stackPop]
  refine ⟨?_, fun v hv => ?_, fun hnone => ⟨fun hk => ?_, fun hk => ?_⟩⟩
  · rw [hks]
  · rw [hks]
    show (bindCallback k ((g.kinds k).stack.tail.head?.join) (g.kinds k).obs g.fresh).1 = some v
    rw [hv, bindCallback_some]
  · subst hk
    refine ⟨?_, ?_⟩
    · rw [hks]
      show (bindCallback .texture2D ((g.kinds .texture2D).stack.tail.head?.join)
          (g.kinds .texture2D).obs g.fresh).1 = some (.dummyTex g.fresh)
      rw [hnone]; rfl
    · rw [hfr, hnone]; rfl
  · refine ⟨?_, ?_⟩
    · rw [hks]
      show (bindCallback k ((g.kinds k).stack.tail.head?.join) (g.kinds k).obs g.fresh).1
        = (g.kinds k).obs
      rw [hnone]
      cases k with
      | texture2D => exact absurd rfl hk
      | arrayBuffer => rfl
      | elementArrayBuffer => rfl
      | framebuffer => rfl
      | renderbuffer => rfl
      | viewport => rfl
      | program => rfl
    · rw [hfr, hnone]
      cases k with
      | texture2D => exact absurd rfl hk
      | arrayBuffer => rfl
      | elementArrayBuffer => rfl
      | framebuffer => rfl
      | renderbuffer => rfl
      | viewport => rfl
      | program => rfl

/-- C7 witness: popping the empty texture-unit stack binds dummy texture 0
and advances the dummy counter; popping the singleton array-buffer stack
empties it and leaves the binding untouched. -/
theorem C7_pop_amended_witness :
    ((stackPop .texture2D g0).kinds .texture2D).obs = some (.dummyTex 0) ∧
    (stackPop .texture2D g0).fresh = 1 ∧
    ((stackPop .arrayBuffer gArr).kinds .arrayBuffer).stack = [] ∧
    ((stackPop .arrayBuffer gArr).kinds .arrayBuffer).obs
      = (gArr.kinds .arrayBuffer).obs := by
  have h1 := ((C7_pop_amended .texture2D g0).2.2 (by decide)).1 rfl
  have h2 := (C7_pop_amended .arrayBuffer gArr).1
  have h3 := ((C7_pop_amended .arrayBuffer gArr).2.2 (by decide)).2 (by decide)
  exact ⟨h1.1, h1.2, h2.trans (by decide), h3.1⟩

/-- deepEq is reflexive: a uniform reference is deep-equal to itself. -/
theorem deepEqU_refl (u : Option URef) : deepEqU u u = true := by
  cases u <;> simp [deepEqU]

/-- The uniform component of the flush condition fails exactly when the two
uniforms are deep-equal (reference equality implies deep equality). -/
theorem deepEqU_component_iff (u1 u2 : Option URef) :
    ¬(u1 ≠ u2 ∧ deepEqU u1 u2 = false) ↔ deepEqU u1 u2 = true := by
  constructor
  · intro h
    by_cases he : u1 = u2
    · subst he; exact deepEqU_refl u1
    · cases hd : deepEqU u1 u2
      · exact absurd ⟨he, hd⟩ h
      · rfl
  · intro hd hc
    rw [hc.2] at hd
    exact Bool.false_ne_true hd

/-- With no active Picture, push takes the live branch. -/
theorem push_of_picture_none (st : BatchRenderer) (a : PushArgs)
    (h : st.picture = none) : st.push a = st.pushLive a := by
  unfold BatchRenderer.push; rw [h]

/-- With an active Picture, push takes the recording branch and reports no
flush. -/
theorem push_of_picture_some (st : BatchRenderer) (a : PushArgs) (pic : Picture)
    (h : st.picture = some pic) :
    st.push a
      = ({ st with picture := some (BatchRenderer.pushRecording pic st.stride a) }, false) := by
  unfold BatchRenderer.push; rw [h]

/-- The live push unfolded: optional flush-and-setBlend, then append. -/
theorem pushLive_fst (st : BatchRenderer) (a : PushArgs) :
    (st.pushLive a).1
      = (if needsFlush st a then (st.flush a.width a.height).setBlend a.blend else st).append a :=
  rfl

/-- The live push's reported flush flag. -/
theorem pushLive_snd (st : BatchRenderer) (a : PushArgs) :
    (st.pushLive a).2 = decide (needsFlush st a) :=
  rfl

/-- append's queue evolution: vertices verbatim. -/
theorem append_vqueue (st : BatchRenderer) (a : PushArgs) :
    (st.append a).vqueue = st.vqueue ++ a.vertices :=
  rfl

/-- append's queue evolution: indices rebased by the pre-append vertex count
over the stride. -/
theorem append_iqueue (st : BatchRenderer) (a : PushArgs) :
    (st.append a).iqueue
      = st.iqueue ++ a.indices.map (fun i => i + (st.vqueue.length : ℚ) / (st.stride : ℚ)) :=
  rfl

/-- setBlend sets curBlend and touches nothing else among queues, picture and
configuration. -/
theorem setBlend_proj (st : BatchRenderer) (b : BlendMode) :
    (st.setBlend b).curBlend = b ∧
    (st.setBlend b).vqueue = st.vqueue ∧
    (st.setBlend b).iqueue = st.iqueue ∧
    (st.setBlend b).picture = st.picture ∧
    (st.setBlend b).stride = st.stride ∧
    (st.setBlend b).maxVertices = st.maxVertices ∧
    (st.setBlend b).maxIndices = st.maxIndices := by
  unfold BatchRenderer.setBlend
  split
  · rename_i h; exact ⟨h.symm, rfl, rfl, rfl, rfl, rfl, rfl⟩
  · exact ⟨rfl, rfl, rfl, rfl, rfl, rfl, rfl⟩

/-- flush never changes the current tuple, picture or configuration. -/
theorem flush_proj (st : BatchRenderer) (w h : Nat) :
    (st.flush w h).curPrimitive = st.curPrimitive ∧
    (st.flush w h).curShader = st.curShader ∧
    (st.flush w h).curTex = st.curTex ∧
    (st.flush w h).curUniform = st.curUniform ∧
    (st.flush w h).curBlend = st.curBlend ∧
    (st.flush w h).curFixed = st.curFixed ∧
    (st.flush w h).picture = st.picture ∧
    (st.flush w h).stride = st.stride ∧
    (st.flush w h).maxVertices = st.maxVertices ∧
    (st.flush w h).maxIndices = st.maxIndices := by
  unfold BatchRenderer.flush
  split
  · exact ⟨rfl, rfl, rfl, rfl, rfl, rfl, rfl, rfl, rfl, rfl⟩
  · split
    · exact ⟨rfl, rfl, rfl, rfl, rfl, rfl, rfl, rfl, rfl, rfl⟩
    · exact ⟨rfl, rfl, rfl, rfl, rfl, rfl, rfl, rfl, rfl, rfl⟩

/-- flush is the identity when its falsiness guard trips. -/
theorem flush_eq_of_guard (st : BatchRenderer) (w h : Nat)
    (hg : st.curPrimitive = none ∨ st.curPrimitive = some 0
      ∨ st.curShader = none ∨ st.vqueue = [] ∨ st.iqueue = []) :
    st.flush w h = st := by
  unfold BatchRenderer.flush
  rw [if_pos hg]

/-- flush clears both queues and counts a draw when a flushable primitive and
shader are current, the queues are nonempty, and the pending upload fits the
GL buffers sized at construction. -/
theorem flush_clears (st : BatchRenderer) (w h : Nat)
    (h1 : st.curPrimitive ≠ none) (h2 : st.curPrimitive ≠ some 0)
    (h3 : st.curShader ≠ none) (h4 : st.vqueue ≠ []) (h5 : st.iqueue ≠ [])
    (h6 : st.vqueue.length ≤ st.maxVertices) (h7 : st.iqueue.length ≤ st.maxIndices) :
    st.flush w h = { st with vqueue := [], iqueue := [], numDraws := st.numDraws + 1 } := by
  unfold BatchRenderer.flush
  rw [if_neg, if_neg]
  · push_neg
    omega
  · intro hc
    rcases hc with hc | hc | hc | hc | hc
    · exact h1 hc
    · exact h2 hc
    · exact h3 hc
    · exact h4 hc
    · exact h5 hc

/-- After a live push, the current tuple holds exactly the pushed material
(including curBlend, via setBlend on a flush or the failed blend comparison
without one), the picture stays inactive and the configuration is
untouched. -/
theorem push_fields (st : BatchRenderer) (a : PushArgs) (hpic : st.picture = none) :
    (st.push a).1.curPrimitive = some a.primitive ∧
    (st.push a).1.curShader = some a.shader ∧
    (st.push a).1.curTex = a.tex ∧
    (st.push a).1.curUniform = a.uniform ∧
    (st.push a).1.curFixed = some a.fixed ∧
    (st.push a).1.curBlend = a.blend ∧
    (st.push a).1.picture = none ∧
    (st.push a).1.stride = st.stride ∧
    (st.push a).1.maxVertices = st.maxVertices ∧
    (st.push a).1.maxIndices = st.maxIndices := by
  rw [push_of_picture_none st a hpic, pushLive_fst]
  by_cases hf : needsFlush st a
  · rw [if_pos hf]
    obtain ⟨s1, s2, s3, s4, s5, s6, s7⟩ := setBlend_proj (st.flush a.width a.height) a.blend
    obtain ⟨f1, f2, f3, f4, f5, f6, f7, f8, f9, f10⟩ := flush_proj st a.width a.height
    refine ⟨rfl, rfl, rfl, rfl, rfl, s1, ?_, ?_, ?_, ?_⟩
    · show ((st.flush a.width a.height).setBlend a.blend).picture = none
      rw [s4, f7, hpic]
    · show ((st.flush a.width a.height).setBlend a.blend).stride = st.stride
      rw [s5, f8]
    · show ((st.flush a.width a.height).setBlend a.blend).maxVertices = st.maxVertices
      rw [s6, f9]
    · show ((st.flush a.width a.height).setBlend a.blend).maxIndices = st.maxIndices
      rw [s7, f10]
  · rw [if_neg hf]
    have hntc : ¬ tupleChanged st a := fun htc => hf (Or.inl htc)
    unfold tupleChanged at hntc
    push_neg at hntc
    exact ⟨rfl, rfl, rfl, rfl, rfl, hntc.2.2.2.2.1, hpic, rfl, rfl, rfl⟩

/-- The current tuple left by a live push fails the next flush condition's
material part exactly when the two pushes' tuples compare equal in the
claim's sense. -/
theorem tuple_after_push (st : BatchRenderer) (a1 a2 : PushArgs)
    (hpic : st.picture = none) :
    ¬ tupleChanged (st.push a1).1 a2 ↔ claimTupleEq a1 a2 := by
  obtain ⟨h1, h2, h3, h4, h5, h6, _, _, _, _⟩ := push_fields st a1 hpic
  unfold tupleChanged claimTupleEq
  rw [h1, h2, h3, h4, h5, h6]
  rw [not_or, not_or, not_or, not_or, not_or, deepEqU_component_iff]
  simp [not_ne_iff]

/-- A live push onto empty queues appends exactly its own geometry, with
indices rebased by the zero offset. -/
theorem push_on_empty (st : BatchRenderer) (a : PushArgs)
    (hpic : st.picture = none) (hv : st.vqueue = []) (hi : st.iqueue = []) :
    (st.push a).1.vqueue = a.vertices ∧
    (st.push a).1.iqueue = a.indices.map (fun i => i + 0 / (st.stride : ℚ)) := by
  rw [push_of_picture_none st a hpic, pushLive_fst]
  by_cases hf : needsFlush st a
  · rw [if_pos hf, flush_eq_of_guard st a.width a.height (Or.inr (Or.inr (Or.inr (Or.inl hv))))]
    obtain ⟨s1, s2, s3, s4, s5, s6, s7⟩ := setBlend_proj st a.blend
    constructor
    · rw [append_vqueue, s2, hv, List.nil_append]
    · rw [append_iqueue, s3, s2, s5, hi, hv, List.nil_append]
      simp
  · rw [if_neg hf]
    constructor
    · rw [append_vqueue, hv, List.nil_append]
    · rw [append_iqueue, hi, hv, List.nil_append]
      simp

/-- Appending a valid push onto queues with enough room preserves the live
invariant. -/
theorem liveInv_append_fits (Y : BatchRenderer) (a : PushArgs)
    (hpic : Y.picture = none)
    (hvle : Y.vqueue.length + a.vertices.length ≤ Y.maxVertices)
    (hile : Y.iqueue.length + a.indices.length ≤ Y.maxIndices)
    (hp0 : a.primitive ≠ 0) (hvne : a.vertices ≠ []) (hine : a.indices ≠ []) :
    LiveInv (Y.append a) := by
  unfold LiveInv
  refine ⟨hpic, ?_, ?_, ?_, fun _ => ⟨?_, ?_, ?_⟩⟩
  · rw [append_vqueue]
    simpa using hvle
  · rw [append_iqueue]
    simpa using hile
  · rw [append_vqueue, append_iqueue]
    constructor
    · intro h
      exact absurd (List.append_eq_nil.mp h).2 hvne
    · intro h
      exact absurd (List.map_eq_nil_iff.mp (List.append_eq_nil.mp h).2) hine
  · show some a.primitive ≠ none
    simp
  · show some a.primitive ≠ some 0
    simpa using hp0
  · show some a.shader ≠ none
    simp

/-- Under the live invariant, flushing and setting the blend leaves both
queues empty (either they were empty and flush early-returns, or the guard
and the capacity check pass and flush clears them), with picture and
configuration untouched. -/
theorem flush_setBlend_empties (st : BatchRenderer) (w h : Nat) (b : BlendMode)
    (hvlen : st.vqueue.length ≤ st.maxVertices)
    (hilen : st.iqueue.length ≤ st.maxIndices)
    (hiff : st.vqueue = [] ↔ st.iqueue = [])
    (hcur : st.vqueue ≠ [] →
      st.curPrimitive ≠ none ∧ st.curPrimitive ≠ some 0 ∧ st.curShader ≠ none) :
    ((st.flush w h).setBlend b).vqueue = [] ∧
    ((st.flush w h).setBlend b).iqueue = [] ∧
    ((st.flush w h).setBlend b).picture = st.picture ∧
    ((st.flush w h).setBlend b).maxVertices = st.maxVertices ∧
    ((st.flush w h).setBlend b).maxIndices = st.maxIndices := by
  obtain ⟨s1, s2, s3, s4, s5, s6, s7⟩ := setBlend_proj (st.flush w h) b
  obtain ⟨f1, f2, f3, f4, f5, f6, f7, f8, f9, f10⟩ := flush_proj st w h
  refine ⟨?_, ?_, by rw [s4, f7], by rw [s6, f9], by rw [s7, f10]⟩
  · rw [s2]
    by_cases hv : st.vqueue = []
    · rw [flush_eq_of_guard st w h (Or.inr (Or.inr (Or.inr (Or.inl hv))))]
      exact hv
    · obtain ⟨hc1, hc2, hc3⟩ := hcur hv
      have hi : st.iqueue ≠ [] := fun hie => hv (hiff.mpr hie)
      rw [flush_clears st w h hc1 hc2 hc3 hv hi hvlen hilen]
  · rw [s3]
    by_cases hv : st.vqueue = []
    · rw [flush_eq_of_guard st w h (Or.inr (Or.inr (Or.inr (Or.inl hv))))]
      exact hiff.mp hv
    · obtain ⟨hc1, hc2, hc3⟩ := hcur hv
      have hi : st.iqueue ≠ [] := fun hie => hv (hiff.mpr hie)
      rw [flush_clears st w h hc1 hc2 hc3 hv hi hvlen hilen]

/-- One valid live push preserves the live invariant. -/
theorem liveInv_push (st : BatchRenderer) (a : PushArgs)
    (hinv : LiveInv st) (hva : ValidArg st.maxVertices st.maxIndices a) :
    LiveInv (st.push a).1 := by
  obtain ⟨hpic, hvlen, hilen, hiff, hcur⟩ := hinv
  obtain ⟨hp0, hvne, hine, hvle, hile⟩ := hva
  rw [push_of_picture_none st a hpic, pushLive_fst]
  by_cases hf : needsFlush st a
  · rw [if_pos hf]
    obtain ⟨e1, e2, e3, e4, e5⟩ :=
      flush_setBlend_empties st a.width a.height a.blend hvlen hilen hiff hcur
    refine liveInv_append_fits _ a (by rw [e3, hpic]) ?_ ?_ hp0 hvne hine
    · rw [e1, e4]
      simpa using hvle
    · rw [e2, e5]
      simpa using hile
  · rw [if_neg hf]
    have hnov : ¬ wouldOverflow st a := fun hov => hf (Or.inr hov)
    unfold wouldOverflow at hnov
    push_neg at hnov
    exact liveInv_append_fits st a hpic hnov.1 hnov.2 hp0 hvne hine

/-- A sequence of valid live pushes preserves the live invariant and the
configured maxima. -/
theorem runPushes_liveInv (l : List PushArgs) :
    ∀ st : BatchRenderer, LiveInv st →
      (∀ a ∈ l, ValidArg st.maxVertices st.maxIndices a) →
      LiveInv (runPushes st l)
        ∧ (runPushes st l).maxVertices = st.maxVertices
        ∧ (runPushes st l).maxIndices = st.maxIndices := by
  induction l with
  | nil => exact fun st hinv _ => ⟨hinv, rfl, rfl⟩
  | cons a l ih =>
    intro st hinv hargs
    have hva := hargs a (List.mem_cons_self a l)
    have hinv1 := liveInv_push st a hinv hva
    obtain ⟨_, _, _, _, _, _, _, _, hmv, hmi⟩ := push_fields st a hinv.1
    have hargs1 : ∀ x ∈ l, ValidArg (st.push a).1.maxVertices (st.push a).1.maxIndices x := by
      intro x hx
      rw [hmv, hmi]
      exact hargs x (List.mem_cons_of_mem a hx)
    have hrun : runPushes st (a :: l) = runPushes (st.push a).1 l := rfl
    rw [hrun]
    obtain ⟨h1, h2, h3⟩ := ih (st.push a).1 hinv1 hargs1
    exact ⟨h1, h2.trans hmv, h3.trans hmi⟩

/-- C2 counterexample: a renderer with maxVertices = 2 receives a single
live push carrying three vertex floats; flush is invoked but the empty
queues make it a no-op, and after the push the vertex queue holds 3 > 2
entries - refuting the unconditional capacity claim. -/
theorem C2_counterexample :
    brSmall.picture = none ∧
    (brSmall.push argBig).2 = true ∧
    (brSmall.push argBig).1.vqueue.length = 3 ∧
    ¬ ((brSmall.push argBig).1.vqueue.length ≤ brSmall.maxVertices) := by
  decide

/-- C2 amended: the freshly constructed renderer satisfies the live
invariant; any sequence of live pushes each of which carries a nonzero
primitive enum, nonempty vertex and index data, and data that individually
fits the maxima keeps both queue lengths within the configured maxima; and
whenever appending would exceed either maximum, push invokes flush before
appending. -/
theorem C2_capacity_amended :
    (∀ (format : VertexFormat) (maxV maxI : Nat),
      LiveInv (BatchRenderer.init format maxV maxI)) ∧
    (∀ (st : BatchRenderer) (l : List PushArgs), LiveInv st →
      (∀ a ∈ l, ValidArg st.maxVertices st.maxIndices a) →
      (runPushes st l).vqueue.length ≤ st.maxVertices
        ∧ (runPushes st l).iqueue.length ≤ st.maxIndices) ∧
    (∀ (st : BatchRenderer) (a : PushArgs), st.picture = none →
      wouldOverflow st a → (st.push a).2 = true) := by
  refine ⟨?_, ?_, ?_⟩
  · intro format maxV maxI
    exact ⟨rfl, Nat.zero_le _, Nat.zero_le _, Iff.rfl, fun h => absurd rfl h⟩
  · intro st l hinv hargs
    obtain ⟨h1, h2, h3⟩ := runPushes_liveInv l st hinv hargs
    exact ⟨h2 ▸ h1.2.1, h3 ▸ h1.2.2.1⟩
  · intro st a hpic hov
    rw [push_of_picture_none st a hpic, pushLive_snd]
    exact decide_eq_true (Or.inr hov)

/-- C2 witness: the fresh renderer satisfies the invariant, two concrete
valid pushes keep the queues within the maxima, and the oversized push on
the small renderer invokes flush. -/
theorem C2_capacity_amended_witness :
    LiveInv (BatchRenderer.init fmtEx 100 100) ∧
    ((runPushes brEx [argA, argB]).vqueue.length ≤ brEx.maxVertices
      ∧ (runPushes brEx [argA, argB]).iqueue.length ≤ brEx.maxIndices) ∧
    (brSmall.push argBig).2 = true := by
  refine ⟨C2_capacity_amended.1 fmtEx 100 100, ?_, ?_⟩
  · exact C2_capacity_amended.2.1 brEx [argA, argB]
      (C2_capacity_amended.1 fmtEx 100 100) (by decide)
  · exact C2_capacity_amended.2.2 brSmall argBig rfl (by decide)

/-- C1: for two consecutive live pushes whose second append stays within the
maxima, no flush separates them iff the material tuples compare equal in
the claim's sense (texture and shader by identity, uniform by deep value,
primitive, blend and fixed by value); and after the second push the current
blend mode is the newly pushed one (adopted via setBlend when a flush
happened). -/
theorem C1_live_batching_iff (st0 : BatchRenderer) (a1 a2 : PushArgs)
    (hpic : st0.picture = none)
    (hv : (st0.push a1).1.vqueue.length + a2.vertices.length ≤ (st0.push a1).1.maxVertices)
    (hi : (st0.push a1).1.iqueue.length + a2.indices.length ≤ (st0.push a1).1.maxIndices) :
    (((st0.push a1).1.push a2).2 = false ↔ claimTupleEq a1 a2) ∧
    ((st0.push a1).1.push a2).1.curBlend = a2.blend := by
  have hpic1 : (st0.push a1).1.picture = none := (push_fields st0 a1 hpic).2.2.2.2.2.2.1
  constructor
  · rw [push_of_picture_none _ a2 hpic1, pushLive_snd, decide_eq_false_iff_not]
    have hnov : ¬ wouldOverflow (st0.push a1).1 a2 := by
      unfold wouldOverflow
      push_neg
      omega
    have hsplit : ¬ needsFlush (st0.push a1).1 a2 ↔ ¬ tupleChanged (st0.push a1).1 a2 := by
      unfold needsFlush
      rw [not_or]
      exact ⟨And.left, fun h => ⟨h, hnov⟩⟩
    rw [hsplit, tuple_after_push st0 a1 a2 hpic]
  · exact (push_fields (st0.push a1).1 a2 hpic1).2.2.2.2.2.1

/-- C1 witness: two concrete pushes with equal material tuples batch with no
flush in between, and the current blend is the pushed one. -/
theorem C1_live_batching_iff_witness :
    (((brEx.push argA).1.push argB).2 = false ↔ claimTupleEq argA argB) ∧
    ((brEx.push argA).1.push argB).1.curBlend = argB.blend :=
  C1_live_batching_iff brEx argA argB rfl (by decide) (by decide)

/-- C3: pushing geometry A into an empty live batch and then geometry B in
the same batch (equal material tuple, within capacity) stores B's indices
rebased by exactly A's vertex float count divided by the stride. -/
theorem C3_index_rebase (st0 : BatchRenderer) (A B : PushArgs)
    (hpic : st0.picture = none) (hvq : st0.vqueue = []) (hiq : st0.iqueue = [])
    (hstride : 0 < st0.stride)
    (ht : claimTupleEq A B)
    (hcapv : A.vertices.length + B.vertices.length ≤ st0.maxVertices)
    (hcapi : A.indices.length + B.indices.length ≤ st0.maxIndices) :
    (((st0.push A).1.push B).1.iqueue).drop A.indices.length
      = B.indices.map (fun i => i + (A.vertices.length : ℚ) / (st0.stride : ℚ)) := by
  obtain ⟨hv1, hi1⟩ := push_on_empty st0 A hpic hvq hiq
  obtain ⟨_, _, _, _, _, _, hpic1, hstr1, hmv1, hmi1⟩ := push_fields st0 A hpic
  have hlen1 : (st0.push A).1.iqueue.length = A.indices.length := by
    rw [hi1, List.length_map]
  have hnf : ¬ needsFlush (st0.push A).1 B := by
    unfold needsFlush
    rw [not_or]
    refine ⟨(tuple_after_push st0 A B hpic).mpr ht, ?_⟩
    unfold wouldOverflow
    push_neg
    have hvlen : (st0.push A).1.vqueue.length = A.vertices.length := by
      rw [hv1]
    rw [hvlen, hlen1, hmv1, hmi1]
    omega
  rw [push_of_picture_none _ B hpic1, pushLive_fst, if_neg hnf, append_iqueue]
  rw [← hlen1, List.drop_left, hv1, hstr1]

/-- C3 witness: after pushing four vertex floats at stride 2, the second
push's indices are stored rebased by 4 / 2 = 2. -/
theorem C3_index_rebase_witness :
    (((brEx.push argA).1.push argB).1.iqueue).drop argA.indices.length
      = argB.indices.map (fun i => i + (argA.vertices.length : ℚ) / (brEx.stride : ℚ)) :=
  C3_index_rebase brEx argA argB rfl rfl rfl (by decide) (by decide) (by decide) (by decide)

/-- Cons over a push sequence steps by one push. -/
theorem runPushes_cons (st : BatchRenderer) (a : PushArgs) (l : List PushArgs) :
    runPushes st (a :: l) = runPushes (st.push a).1 l :=
  rfl

/-- sumCounts over a cons. -/
theorem sumCounts_cons (a : PushArgs) (l : List PushArgs) :
    sumCounts (a :: l) = a.indices.length + sumCounts l := by
  simp [sumCounts]

/-- A recording push whose material matches the last command's extends that
command's count by the pushed index count. -/
theorem pushRecording_commands_merge (pic : Picture) (stride : Nat) (a : PushArgs)
    (c : PicCommand) (hlast : pic.commands.getLast? = some c)
    (hm : c.material = pushMaterial a) :
    (BatchRenderer.pushRecording pic stride a).commands
      = pic.commands.dropLast ++ [⟨c.material, c.index, c.count + a.indices.length⟩] := by
  unfold BatchRenderer.pushRecording
  simp only [pushMaterial] at hm
  simp [hlast, hm]

/-- A recording push whose material does not match the last command's (or
with no command yet) appends a fresh command recording the current index
position and the pushed index count. -/
theorem pushRecording_commands_new (pic : Picture) (stride : Nat) (a : PushArgs)
    (h : ∀ c, pic.commands.getLast? = some c → c.material ≠ pushMaterial a) :
    (BatchRenderer.pushRecording pic stride a).commands
      = pic.commands ++ [⟨pushMaterial a, pic.indices.length, a.indices.length⟩] := by
  unfold BatchRenderer.pushRecording
  cases hl : pic.commands.getLast? with
  | none => rfl
  | some c =>
    have hne : ¬ c.material = ⟨a.tex, a.shader, a.uniform, a.blend⟩ := by
      simpa [pushMaterial] using h c hl
    simp [hne, pushMaterial]

/-- Running same-material recording pushes over a Picture whose command list
is a single command on that material keeps a single command and adds every
pushed index count to it. -/
theorem rec_run_merge (l : List PushArgs) (m : PMaterial) :
    ∀ (st : BatchRenderer) (pic : Picture) (i c : Nat),
      st.picture = some pic → pic.commands = [⟨m, i, c⟩] →
      (∀ a ∈ l, pushMaterial a = m) →
      ((runPushes st l).picture.map Picture.commands) = some [⟨m, i, c + sumCounts l⟩] := by
  induction l with
  | nil =>
    intro st pic i c hpic hcmds _
    simp [runPushes, hpic, hcmds, sumCounts]
  | cons a l ih =>
    intro st pic i c hpic hcmds hall
    have hm := hall a (List.mem_cons_self a l)
    have hrest : ∀ x ∈ l, pushMaterial x = m := fun x hx => hall x (List.mem_cons_of_mem a hx)
    have hstep : (st.push a).1.picture = some (BatchRenderer.pushRecording pic st.stride a) := by
      rw [push_of_picture_some st a pic hpic]
    have hlast : pic.commands.getLast? = some ⟨m, i, c⟩ := by
      rw [hcmds]; rfl
    have hcmds1 : (BatchRenderer.pushRecording pic st.stride a).commands
        = [⟨m, i, c + a.indices.length⟩] := by
      rw [pushRecording_commands_merge pic st.stride a ⟨m, i, c⟩ hlast hm.symm, hcmds]
      rfl
    rw [runPushes_cons, ih (st.push a).1 _ i (c + a.indices.length) hstep hcmds1 hrest,
      sumCounts_cons, ← Nat.add_assoc]

/-- C4 counterexample: while recording, two consecutive pushes whose
material tuples compare equal in the claim's sense - the uniforms are
distinct objects with equal deep values - produce two commands, not one,
because the recording merge compares uniforms by reference. -/
theorem C4_counterexample :
    claimTupleEq argU0 argU1 ∧
    deepEqU argU0.uniform argU1.uniform = true ∧
    argU0.uniform ≠ argU1.uniform ∧
    (((recEx.push argU0).1.push argU1).1.picture.map (fun p => p.commands.length))
      = some 2 := by
  decide

/-- C4 amended: while recording, consecutive pushes merge into the last
command iff their (texture reference, shader reference, uniform reference,
blend value) quadruples coincide - primitive and fixed are ignored and
uniforms compare by reference, not deep value.  A nonempty run of pushes
sharing one such quadruple from a fresh Picture yields exactly one command
whose count is the sum of the pushed index counts; a push whose quadruple
differs from the last command's appends a new command; recording pushes
never flush. -/
theorem C4_picture_compaction_amended :
    (∀ (st : BatchRenderer) (a0 : PushArgs) (l : List PushArgs) (m : PMaterial),
      st.picture = some { vertices := [], indices := [], commands := [] } →
      pushMaterial a0 = m → (∀ a ∈ l, pushMaterial a = m) →
      ((runPushes st (a0 :: l)).picture.map Picture.commands)
        = some [⟨m, 0, sumCounts (a0 :: l)⟩]) ∧
    (∀ (st : BatchRenderer) (pic : Picture) (c : PicCommand) (a : PushArgs),
      st.picture = some pic → pic.commands.getLast? = some c →
      c.material ≠ pushMaterial a →
      ((st.push a).1.picture.map Picture.commands)
        = some (pic.commands ++ [⟨pushMaterial a, pic.indices.length, a.indices.length⟩])) ∧
    (∀ (st : BatchRenderer) (pic : Picture) (a : PushArgs),
      st.picture = some pic → (st.push a).2 = false) := by
  refine ⟨?_, ?_, ?_⟩
  · intro st a0 l m hpic hm0 hall
    have hstep : (st.push a0).1.picture
        = some (BatchRenderer.pushRecording ⟨[], [], []⟩ st.stride a0) := by
      rw [push_of_picture_some st a0 _ hpic]
    have hcmds0 : (BatchRenderer.pushRecording ⟨[], [], []⟩ st.stride a0).commands
        = [⟨m, 0, a0.indices.length⟩] := by
      rw [pushRecording_commands_new ⟨[], [], []⟩ st.stride a0 (fun c hc => by simp at hc)]
      rw [hm0]
      rfl
    rw [runPushes_cons,
      rec_run_merge l m (st.push a0).1 _ 0 a0.indices.length hstep hcmds0 hall,
      sumCounts_cons]
  · intro st pic c a hpic hlast hne
    rw [push_of_picture_some st a pic hpic]
    show some (BatchRenderer.pushRecording pic st.stride a).commands = _
    rw [pushRecording_commands_new pic st.stride a
      (fun c' hc' => Option.some.inj (hlast.symm.trans hc') ▸ hne)]
  · intro st pic a hpic
    rw [push_of_picture_some st a pic hpic]

/-- C4 witness: two recording pushes sharing texture, shader, uniform and
blend but differing in primitive and fixed merge into one command whose
count is the sum of their index counts; a push with a different uniform
object then appends a second command; recording pushes report no flush. -/
theorem C4_picture_compaction_amended_witness :
    ((runPushes recEx [argA, argAltPrim]).picture.map Picture.commands)
      = some [⟨⟨none, 1, none, .Normal⟩, 0, 5⟩] ∧
    ((({ brEx with picture := some ⟨[1, 2], [0, 1, 2], [⟨⟨none, 1, some ⟨0, 7⟩, .Normal⟩, 0, 3⟩]⟩ } : BatchRenderer).push argU1).1.picture.map Picture.commands)
      = some ([⟨⟨none, 1, some ⟨0, 7⟩, .Normal⟩, 0, 3⟩]
          ++ [⟨pushMaterial argU1, 3, 2⟩]) ∧
    (recEx.push argA).2 = false := by
  refine ⟨?_, ?_, ?_⟩
  · exact C4_picture_compaction_amended.1 recEx argA [argAltPrim]
      ⟨none, 1, none, .Normal⟩ rfl rfl (by decide)
  · exact C4_picture_compaction_amended.2.1 _
      ⟨[1, 2], [0, 1, 2], [⟨⟨none, 1, some ⟨0, 7⟩, .Normal⟩, 0, 3⟩]⟩
      ⟨⟨none, 1, some ⟨0, 7⟩, .Normal⟩, 0, 3⟩ argU1 rfl rfl (by decide)
  · exact C4_picture_compaction_amended.2.2 recEx ⟨[], [], []⟩ argA rfl
